import Mathlib

/-!
Verification of the Cryptasium rank/condition evaluation and XP-bucket
allocation engine.

The definitions below are a shallow embedding of the Python sources:
`models.py` (data model, XP computation, condition evaluation),
`app.py` (`get_user_stats`, `admin_trackable_action`) and
`migrate_xp_buckets.py` (historical bucket migration).

Conventions of the embedding:
* SQL integer columns become `Int` (ids become `Nat`), float columns become
  `ℚ`, nullable columns become `Option _`, string enumerations stay `String`.
* Python `int(x)` truncates toward zero; `pyInt` mirrors it on `ℚ`.
* Dates are day numbers (`Int`); `DailyLog` additionally stores the ISO week
  key that `date.isocalendar()[:2]` would yield, supplied by the calendar
  collaborator which is out of scope.
* A SQLAlchemy query without `order_by` returns rows in primary-key order,
  which is the order of the embedded lists.
-/

namespace Cryptasium

/-- Python `int(q)` on a rational: truncation toward zero
(`q.num.tdiv q.den` on the reduced fraction). -/
def pyInt (q : ℚ) : Int := Int.tdiv q.num q.den

/-- Python truthiness of an optional id as tested by
`if allocated_condition_id:`: `None` and `0` are falsy. -/
def optIdTruthy : Option Nat → Bool
  | none => false
  | some n => n != 0

/-- Python truthiness of an optional string (`None` and `""` are falsy),
as in `self.custom_name or 'Total XP'` and `... and self.trackable_slug`. -/
def optStrTruthy : Option String → Bool
  | none => false
  | some s => s != ""

/-- `c.custom_name or 'Total XP'` (app.py, ambiguity responses). -/
def displayName (customName : Option String) : String :=
  match customName with
  | none => "Total XP"
  | some s => if s = "" then "Total XP" else s

/-- One row of `tiers_config` on a trackable type
(`{"min": ..., "xp": ...}`, models.py `TrackableType.get_tiers`). -/
structure Tier where
  min : ℚ
  xp : Int
  deriving DecidableEq

/-- `TrackableType` (models.py): the fields consumed by the XP engine. -/
structure TrackableType where
  id : Nat
  slug : String
  xp_per_unit : Int
  xp_mode : String
  xp_multiplier : ℚ
  tiers : List Tier
  deriving DecidableEq

/-- `TrackableEntry` (models.py): one logged activity occurrence.
`created_day` stands for `func.date(created_at)`. -/
structure TrackableEntry where
  id : Nat
  trackable_type_id : Nat
  date : Int
  count : Int
  value : ℚ
  allocated_condition_id : Option Nat
  created_day : Int
  deriving DecidableEq

/-- `TaskCompletion` (models.py; the `allocated_condition_id` column is added
by `migrate_task_allocation.py` and written by app.py and
`migrate_xp_buckets.py`). -/
structure TaskCompletion where
  id : Nat
  task_id : Nat
  date : Int
  count : Int
  xp_earned : Int
  allocated_condition_id : Option Nat
  deriving DecidableEq

/-- `DailyLog` (models.py). `week_year`/`week_num` stand for
`log.date.isocalendar()[:2]`, supplied by the external calendar. -/
structure DailyLog where
  date : Int
  week_year : Int
  week_num : Int
  total_xp : Int
  goal_met : Bool
  deriving DecidableEq

/-- `RankCondition` (models.py): one requirement attached to a rank. -/
structure RankCondition where
  id : Nat
  condition_type : String
  threshold : Int
  custom_name : Option String
  is_bucket : Bool
  trackable_slug : Option String
  deriving DecidableEq

/-- `CustomRank` (models.py) with its owned conditions
(the `conditions` relationship, in primary-key order). -/
structure CustomRank where
  id : Nat
  level : Int
  min_xp : Option Int
  is_max_rank : Bool
  conditions : List RankCondition
  deriving DecidableEq

/-- `Streak` (models.py): the `daily_xp` streak row of a user. -/
structure Streak where
  current_count : Int
  longest_count : Int
  last_activity_date : Option Int
  streak_start_date : Option Int
  deriving DecidableEq

/-- `UserSettings` (models.py): the field the XP engine reads. -/
structure UserSettings where
  enable_youtube_sync : Bool
  deriving DecidableEq

/-- `YouTubeVideo` (models.py): fields read by `get_youtube_xp` and the
youtube condition kinds. -/
structure YouTubeVideo where
  duration_seconds : Int
  content_type : String
  views : Int
  deriving DecidableEq

/-- `Short` (models.py): fields read by the youtube condition kinds. -/
structure Short where
  views : Int
  deriving DecidableEq

/-- The rows owned by one user, as the queries in models.py/app.py see them:
every query in the embedded code filters by this user's id, so the per-user
slice of each table is a list field. `achievements_unlocked_count` is the
row count of `UserAchievement` (only ever used through `.count()`). -/
structure UserState where
  trackable_types : List TrackableType
  entries : List TrackableEntry
  completions : List TaskCompletion
  daily_logs : List DailyLog
  ranks : List CustomRank
  streak : Option Streak
  user_settings : Option UserSettings
  youtube_subscribers : Int
  youtube_channel_views : Int
  videos : List YouTubeVideo
  shorts : List Short
  achievements_unlocked_count : Nat
  current_rank_id : Option Nat
  deriving DecidableEq

/-- Sum an integer-valued function over a list (Python `sum(...)`). -/
def isum {α : Type} (l : List α) (f : α → Int) : Int := (l.map f).sum

/-- Descending order on tier minima: `sorted(tiers, key=min, reverse=True)`. -/
def tierDescending (a b : Tier) : Prop := b.min ≤ a.min

instance : DecidableRel tierDescending := fun a b => Rat.instDecidableLe b.min a.min

/-- `TrackableType.calculate_xp_for_entry` (models.py:225-241).
Note the Python truthiness test `and value`: a zero value always falls
through to the fixed formula, and `(self.xp_multiplier or 1.0)` replaces a
zero multiplier by 1. -/
def TrackableType.calculate_xp_for_entry (t : TrackableType) (count : Int) (value : ℚ) : Int :=
  if t.xp_mode = "fixed" then count * t.xp_per_unit
  else if t.xp_mode = "value_based" ∧ value ≠ 0 then
    pyInt (|value| * (if t.xp_multiplier = 0 then 1 else t.xp_multiplier))
  else if t.xp_mode = "tiered" ∧ value ≠ 0 then
    let sortedTiers := List.insertionSort tierDescending t.tiers
    let xp := ((sortedTiers.find? (fun tier => decide (tier.min ≤ |value|))).map Tier.xp).getD
      t.xp_per_unit
    xp * count
  else count * t.xp_per_unit

/-- `TrackableEntry.get_xp` (models.py:307-311): resolve the entry's
trackable type (0 when the reference dangles). -/
def TrackableEntry.get_xp (types : List TrackableType) (e : TrackableEntry) : Int :=
  match types.find? (fun t => decide (t.id = e.trackable_type_id)) with
  | some t => t.calculate_xp_for_entry e.count e.value
  | none => 0

/-- `self.user_settings and self.user_settings.enable_youtube_sync`. -/
def UserState.youtube_sync_on (u : UserState) : Bool :=
  match u.user_settings with
  | some s => s.enable_youtube_sync
  | none => false

/-- XP of one synced video (models.py:99-108). -/
def videoXp (v : YouTubeVideo) : Int :=
  if v.content_type = "shorts" ∨ v.duration_seconds < 60 then 100
  else if v.duration_seconds < 180 then 200
  else if v.duration_seconds < 480 then 400
  else 800

/-- `User.get_youtube_xp` (models.py:78-115): subscribers are worth 20,
channel views 0.5, videos by duration, shorts 100; the float total is
truncated by `int(xp)`. -/
def UserState.get_youtube_xp (u : UserState) : Int :=
  if u.youtube_sync_on then
    pyInt ((u.youtube_subscribers * 20 : Int)
      + (u.youtube_channel_views : ℚ) * (1/2)
      + (isum u.videos videoXp : Int)
      + (u.shorts.length * 100 : Int))
  else 0

/-- `User.get_total_xp` (models.py:62-76): `count * xp_per_unit` over the
entries whose trackable type resolves, plus the stored daily-log XP, plus
the synced YouTube XP when enabled.  Note that this is NOT
`entry.get_xp()`: value-based and tiered modes are ignored here. -/
def UserState.get_total_xp (u : UserState) : Int :=
  isum u.entries (fun e =>
    match u.trackable_types.find? (fun t => decide (t.id = e.trackable_type_id)) with
    | some t => e.count * t.xp_per_unit
    | none => 0)
  + isum u.daily_logs (·.total_xp)
  + (if u.youtube_sync_on then u.get_youtube_xp else 0)

/-- `perfect_weeks` branch of `check_condition` (models.py:559-569):
count ISO weeks holding at least 7 goal-met daily logs. -/
def perfectWeeks (logs : List DailyLog) : Int :=
  let goalLogs := logs.filter (·.goal_met)
  let keys := (goalLogs.map (fun l => (l.week_year, l.week_num))).dedup
  (keys.filter (fun k =>
    decide (7 ≤ (goalLogs.filter (fun l => decide ((l.week_year, l.week_num) = k))).length))).length

/-- `RankCondition.check_condition` (models.py:448-575): compute the current
value for this condition kind and compare it inclusively with the
threshold.  An unrecognized kind leaves the value at 0. -/
def RankCondition.check_condition (c : RankCondition) (u : UserState) : Bool × Int :=
  let current_value : Int :=
    if c.condition_type = "total_xp" then
      if c.is_bucket then
        isum (u.entries.filter (fun e => decide (e.allocated_condition_id = some c.id)))
          (TrackableEntry.get_xp u.trackable_types)
      else u.get_total_xp
    else if c.condition_type = "trackable_xp" ∧ optStrTruthy c.trackable_slug then
      match u.trackable_types.find? (fun t => decide (some t.slug = c.trackable_slug)) with
      | some t =>
        isum (u.entries.filter (fun e => decide (e.trackable_type_id = t.id)))
          (fun e => t.calculate_xp_for_entry e.count e.value)
      | none => 0
    else if c.condition_type = "trackable_count" ∧ optStrTruthy c.trackable_slug then
      match u.trackable_types.find? (fun t => decide (some t.slug = c.trackable_slug)) with
      | some t => isum (u.entries.filter (fun e => decide (e.trackable_type_id = t.id))) (·.count)
      | none => 0
    else if c.condition_type = "youtube_subscribers" then u.youtube_subscribers
    else if c.condition_type = "youtube_total_views" then
      isum u.videos (·.views) + isum u.shorts (·.views)
    else if c.condition_type = "youtube_long_count" then u.videos.length
    else if c.condition_type = "youtube_short_count" then u.shorts.length
    else if c.condition_type = "youtube_long_views" then isum u.videos (·.views)
    else if c.condition_type = "youtube_short_views" then isum u.shorts (·.views)
    else if c.condition_type = "streak_current" then
      match u.streak with
      | some s => s.current_count
      | none => 0
    else if c.condition_type = "streak_longest" then
      match u.streak with
      | some s => s.longest_count
      | none => 0
    else if c.condition_type = "tasks_completed" then u.completions.length
    else if c.condition_type = "total_days_active" then
      ((u.entries.map (·.created_day)).dedup).length
    else if c.condition_type = "total_goals_met" then
      (u.daily_logs.filter (·.goal_met)).length
    else if c.condition_type = "youtube_total_count" then u.videos.length + u.shorts.length
    else if c.condition_type = "perfect_weeks" then perfectWeeks u.daily_logs
    else if c.condition_type = "achievements_unlocked" then u.achievements_unlocked_count
    else 0
  (decide (c.threshold ≤ current_value), current_value)

/-- One entry of the progress dict built by `check_conditions_met`:
threshold, current value and met flag (the keys that `get_user_stats`
reads back out of each per-condition dict). -/
structure ProgressInfo where
  threshold : Int
  current : Int
  met : Bool
  deriving DecidableEq

/-- `CustomRank.check_conditions_met` (models.py:352-390): legacy XP-only
mode when the rank has no conditions, else AND over `check_condition`. -/
def CustomRank.check_conditions_met (r : CustomRank) (u : UserState) :
    Bool × List ProgressInfo :=
  match r.conditions with
  | [] =>
    match r.min_xp with
    | some m =>
      (decide (m ≤ u.get_total_xp),
        [⟨m, u.get_total_xp, decide (m ≤ u.get_total_xp)⟩])
    | none => (true, [])
  | conds =>
    let infos := conds.map (fun c =>
      let res := c.check_condition u
      (⟨c.threshold, res.2, res.1⟩ : ProgressInfo))
    (infos.all (·.met), infos)

/-- Descending rank order used by
`CustomRank.query...order_by(CustomRank.level.desc())` (app.py:424-426). -/
def rankDescending (a b : CustomRank) : Prop := b.level ≤ a.level

instance : DecidableRel rankDescending := fun a b => Int.decLe b.level a.level

instance : IsTotal CustomRank rankDescending := ⟨fun a b => Int.le_total b.level a.level⟩

instance : IsTrans CustomRank rankDescending :=
  ⟨fun _ _ _ hab hbc => le_trans hbc hab⟩

/-- Ascending rank order used by `order_by(CustomRank.level)` /
`order_by(CustomRank.level.asc())` (app.py:450-453, migrate_xp_buckets.py:169). -/
def rankAscending (a b : CustomRank) : Prop := a.level ≤ b.level

instance : DecidableRel rankAscending := fun a b => Int.decLe a.level b.level

instance : IsTotal CustomRank rankAscending := ⟨fun a b => Int.le_total a.level b.level⟩

instance : IsTrans CustomRank rankAscending :=
  ⟨fun _ _ _ hab hbc => le_trans hab hbc⟩

/-- Current-rank selection of `get_user_stats` (app.py:424-437): walk the
user's ranks from highest level to lowest and return the first whose
conditions are all met. -/
def UserState.stats_current_rank (u : UserState) : Option CustomRank :=
  (List.insertionSort rankDescending u.ranks).find?
    (fun r => (r.check_conditions_met u).1)

/-- Next-rank selection of `get_user_stats` (app.py:439-453): prefer the
rank at `current_level + 1`; failing that, unless the current rank is the
max rank, the lowest-level rank strictly above the current level. -/
def UserState.stats_next_rank (u : UserState) : Option CustomRank :=
  let cur := u.stats_current_rank
  let current_level : Int :=
    match cur with
    | some r => r.level
    | none => 0
  match u.ranks.find? (fun r => decide (r.level = current_level + 1)) with
  | some r => some r
  | none =>
    if (match cur with
        | none => true
        | some r => !r.is_max_rank) then
      (List.insertionSort rankAscending
        (u.ranks.filter (fun r => decide (current_level < r.level)))).head?
    else none

/-- Progress aggregation loop of `get_user_stats` (app.py:461-475): each
per-condition dict contributes `min(1.0, current / threshold)` where a zero
(or missing) threshold is replaced by 1 (`info.get('threshold', 1) or 1`),
and the result is the truncated mean percentage.  In the embedding every
value of the progress dict is a per-condition dict, so the
`isinstance(v, dict)` / `'met' in info` guards are identically true. -/
def rank_progress_percent (details : List ProgressInfo) : Int :=
  if details ≠ [] then
    let acc := details.foldl
      (fun (acc : ℚ × Int) info =>
        let threshold : Int := if info.threshold = 0 then 1 else info.threshold
        let current : Int := info.current
        (acc.1 + min 1 ((current : ℚ) / (threshold : ℚ)), acc.2 + 1))
      (0, 0)
    if 0 < acc.2 then pyInt ((acc.1 / (acc.2 : ℚ)) * 100) else 0
  else 0

/-- `Streak.update_streak` (models.py:937-957). -/
def Streak.update_streak (s : Streak) (activity_date : Int) : Streak :=
  let s1 :=
    match s.last_activity_date with
    | none =>
      { s with current_count := 1, streak_start_date := some activity_date }
    | some last =>
      if activity_date = last then s
      else if activity_date - last = 1 then
        { s with current_count := s.current_count + 1 }
      else if 1 < activity_date - last then
        { s with current_count := 1, streak_start_date := some activity_date }
      else s
  let s2 := { s1 with last_activity_date := some activity_date }
  if s2.longest_count < s2.current_count then
    { s2 with longest_count := s2.current_count }
  else s2

/-- Get-or-create of the `daily_xp` streak row followed by `update_streak`
(app.py:164-171). -/
def UserState.touch_streak (u : UserState) (today : Int) : UserState :=
  let s :=
    match u.streak with
    | some s => s
    | none => ⟨0, 0, none, none⟩
  { u with streak := some (s.update_streak today) }

/-- Modelled from the spec: `User.check_rank_update` is invoked by the
logging routes (app.py:174, app.py:312) but is defined nowhere in the
repository sources; only `migrate_user_rank_tracking.py` shows that it
maintains `users.current_rank_id`.  Per the spec's Rank Ladder contract the
current rank is recomputed from the ladder; the tracked id is refreshed and
the ledger is untouched. -/
def UserState.check_rank_update (u : UserState) : (Bool × Option CustomRank) × UserState :=
  let cur := u.stats_current_rank
  let curId := cur.map (·.id)
  ((decide (curId ≠ u.current_rank_id) && curId.isSome, cur),
    { u with current_rank_id := curId })

/-- Fresh primary key for an inserted `TrackableEntry` (autoincrement). -/
def UserState.fresh_entry_id (u : UserState) : Nat :=
  (u.entries.map (·.id)).foldl max 0 + 1

/-- Outcome of the logging route: either the distinguished ambiguous
response (app.py:136-141) carrying `(id, custom_name or 'Total XP')` pairs,
or the success path. -/
inductive LogResponse where
  | ambiguous (conds : List (Nat × String))
  | success
  deriving DecidableEq

/-- `admin_trackable_action` (app.py:112-187), for an authenticated user on
one of their own trackables.  `alloc0` is the parsed
`allocated_condition_id` form field, `isXhr` the
`X-Requested-With == 'XMLHttpRequest'` test.  Mirrors the source: the
ambiguity gate fires only for an increment with no truthy explicit choice;
with two or more `total_xp` candidates on the next rank the ambiguous JSON
is returned (before any write) only on an XHR request, while exactly one
candidate becomes the automatic allocation; a decrement deletes the latest
entry for the trackable today; otherwise the entry is inserted and the
streak updated; finally `check_rank_update` runs and the commit happens. -/
def admin_trackable_action (u : UserState) (trackable_id : Nat) (action : String)
    (value : ℚ) (alloc0 : Option Nat) (isXhr : Bool) (today : Int) :
    LogResponse × UserState :=
  let gate : Option (List (Nat × String)) × Option Nat :=
    if action = "increment" ∧ optIdTruthy alloc0 = false then
      match u.stats_next_rank with
      | some next_rank =>
        let candidates := next_rank.conditions.filter
          (fun c => decide (c.condition_type = "total_xp"))
        if 2 ≤ candidates.length then
          if isXhr then
            (some (candidates.map (fun c => (c.id, displayName c.custom_name))), alloc0)
          else (none, alloc0)
        else
          match candidates with
          | [c] => (none, some c.id)
          | _ => (none, alloc0)
      | none => (none, alloc0)
    else (none, alloc0)
  match gate.1 with
  | some conds => (LogResponse.ambiguous conds, u)
  | none =>
    let u1 :=
      if action = "decrement" then
        let matching := u.entries.filter
          (fun e => decide (e.trackable_type_id = trackable_id ∧ e.date = today))
        match matching.argmax (·.id) with
        | some last => { u with entries := u.entries.eraseP (fun e => decide (e.id = last.id)) }
        | none => u
      else
        let e : TrackableEntry :=
          { id := u.fresh_entry_id
            trackable_type_id := trackable_id
            date := today
            count := 1
            value := value
            allocated_condition_id := gate.2
            created_day := today }
        ({ u with entries := u.entries ++ [e] } : UserState).touch_streak today
    (LogResponse.success, (u1.check_rank_update).2)

/-- Next-rank finder of the bucket migration (migrate_xp_buckets.py:167-175):
ranks in ascending level order, first one whose conditions are not met. -/
def UserState.migrate_next_rank (u : UserState) : Option CustomRank :=
  (List.insertionSort rankAscending u.ranks).find?
    (fun r => !(r.check_conditions_met u).1)

/-- Per-user body of `migrate` (migrate_xp_buckets.py:160-213): target the
active-goal rank; if it has `total_xp` conditions, set `is_bucket` on all of
them, then allocate every unallocated `TrackableEntry` and `TaskCompletion`
of the user to the first such condition.  Returns the new state with the
two rowcounts reported by the script (entries, completions). -/
def migrate_user (u : UserState) : UserState × (Nat × Nat) :=
  match u.migrate_next_rank with
  | none => (u, (0, 0))
  | some next_rank =>
    let xp_conditions := next_rank.conditions.filter
      (fun c => decide (c.condition_type = "total_xp"))
    match xp_conditions with
    | [] => (u, (0, 0))
    | target_bucket :: _ =>
      let ranks1 := u.ranks.map (fun r =>
        if r.id = next_rank.id then
          { r with conditions := r.conditions.map (fun c =>
              if c.condition_type = "total_xp" then { c with is_bucket := true } else c) }
        else r)
      let t_count := (u.entries.filter
        (fun e => decide (e.allocated_condition_id = none))).length
      let c_count := (u.completions.filter
        (fun c => decide (c.allocated_condition_id = none))).length
      let entries1 := u.entries.map (fun e =>
        if e.allocated_condition_id = none then
          { e with allocated_condition_id := some target_bucket.id }
        else e)
      let completions1 := u.completions.map (fun c =>
        if c.allocated_condition_id = none then
          { c with allocated_condition_id := some target_bucket.id }
        else c)
      ({ u with ranks := ranks1, entries := entries1, completions := completions1 },
        (t_count, c_count))

/-! ## Spec-side values for the refutation of C1 and C2

These two definitions follow the SPEC's words, not the code; they are the
values the claims assert and are compared against the embedded code. -/

/-- The global value asserted by claim C1: the sum of `xp()` over all of the
user's ledger entries, ActivityEntry and TaskCompletion alike (a task
completion's XP is its stored `xp_earned`). -/
def specGlobalValue (u : UserState) : Int :=
  isum u.entries (TrackableEntry.get_xp u.trackable_types)
  + isum u.completions (·.xp_earned)

/-- The bucket value asserted by claim C2: the sum of `xp()` over the
ActivityEntry rows AND the TaskCompletion rows whose allocation target is
the condition's id. -/
def specBucketValue (c : RankCondition) (u : UserState) : Int :=
  isum (u.entries.filter (fun e => decide (e.allocated_condition_id = some c.id)))
    (TrackableEntry.get_xp u.trackable_types)
  + isum (u.completions.filter (fun tc => decide (tc.allocated_condition_id = some c.id)))
    (·.xp_earned)

/-- Rewrite every allocation tag of the user's ledger (used to state that
global scope ignores allocation). -/
def retag_all (u : UserState) (f : Option Nat → Option Nat) : UserState :=
  { u with
    entries := u.entries.map
      (fun e => { e with allocated_condition_id := f e.allocated_condition_id })
    completions := u.completions.map
      (fun c => { c with allocated_condition_id := f c.allocated_condition_id }) }

/-! ## Concrete fixtures -/

/-- The seeded `Sale` trackable: value-based XP with multiplier 0.1
(models.py:1188-1195). -/
def saleType : TrackableType := ⟨1, "sale", 10, "value_based", 1/10, []⟩

/-- A logged $1000 sale with no allocation tag. -/
def saleEntry : TrackableEntry := ⟨1, 1, 0, 1, 1000, none, 0⟩

/-- A user owning just the sale entry. -/
def uSale : UserState := ⟨[saleType], [saleEntry], [], [], [], none, none, 0, 0, [], [], 0, none⟩

/-- A global (unbucketed) total-XP condition. -/
def cGlobal : RankCondition := ⟨1, "total_xp", 100, none, false, none⟩

/-- A bucketed total-XP condition with id 7. -/
def cBucket7 : RankCondition := ⟨7, "total_xp", 50, some "Main XP", true, none⟩

/-- A task completion worth 50 XP, allocated to condition 7. -/
def taskDone7 : TaskCompletion := ⟨1, 1, 0, 1, 50, some 7⟩

/-- A user whose only ledger row is the allocated task completion. -/
def uTaskOnly : UserState := ⟨[], [], [taskDone7], [], [], none, none, 0, 0, [], [], 0, none⟩

/-- Retagging function used by the C1 witness. -/
def retagToFive : Option Nat → Option Nat := fun _ => some 5

/-- A lone unmet total-XP condition (id 3). -/
def cSingle : RankCondition := ⟨3, "total_xp", 100, none, false, none⟩

/-- A user whose only rank (level 1, unmet) carries just `cSingle`, so that
rank is the next rank. -/
def uSingle : UserState :=
  ⟨[], [], [], [], [⟨1, 1, none, false, [cSingle]⟩], none, none, 0, 0, [], [], 0, none⟩

/-- Competing total-XP condition "A" (id 1). -/
def cPairA : RankCondition := ⟨1, "total_xp", 100, some "A", false, none⟩

/-- Competing total-XP condition "B" (id 2). -/
def cPairB : RankCondition := ⟨2, "total_xp", 200, some "B", false, none⟩

/-- A user whose only rank (level 1, unmet) carries the two competing
total-XP conditions, so logging with no explicit choice is ambiguous. -/
def uPair : UserState :=
  ⟨[], [], [], [], [⟨1, 1, none, false, [cPairA, cPairB]⟩], none, none, 0, 0, [], [], 0, none⟩

/-! ## C1 -/

/-- C1 (amended): for a `total_xp` condition with `is_bucket = false` the
evaluator's current value is invariant under arbitrary re-tagging of every
ledger allocation tag, and equals `User.get_total_xp()` — the
count-times-rate sum over ActivityEntries plus daily-log XP plus optional
YouTube XP — not the sum of `entry.xp()`. -/
theorem C1_global_scope_ignores_allocation (u : UserState) (c : RankCondition)
    (f : Option Nat → Option Nat)
    (ht : c.condition_type = "total_xp") (hb : c.is_bucket = false) :
    (c.check_condition (retag_all u f)).2 = (c.check_condition u).2 ∧
    (c.check_condition u).2 = u.get_total_xp := by
  have hglobal : ∀ v : UserState, (c.check_condition v).2 = v.get_total_xp := by
    intro v
    simp [RankCondition.check_condition, ht, hb]
  refine ⟨?_, hglobal u⟩
  rw [hglobal (retag_all u f), hglobal u]
  simp [UserState.get_total_xp, retag_all, isum, UserState.youtube_sync_on,
    UserState.get_youtube_xp, List.map_map]
  rfl

/-- C1 witness: the invariance applied to the concrete sale owner with
every tag rewritten to condition 5. -/
theorem C1_witness :
    (cGlobal.check_condition (retag_all uSale retagToFive)).2 =
      (cGlobal.check_condition uSale).2 ∧
    (cGlobal.check_condition uSale).2 = uSale.get_total_xp :=
  C1_global_scope_ignores_allocation uSale cGlobal retagToFive rfl rfl

/-- C1 counterexample: for the $1000 value-based sale the evaluator's
global current value is `count * xp_per_unit = 10`, while the sum of
`xp()` over the ledger — the value the claim asserts — is 100. -/
theorem C1_counterexample :
    (cGlobal.check_condition uSale).2 = 10 ∧
    specGlobalValue uSale = 100 ∧ (10 : Int) ≠ 100 := by
  refine ⟨?_, ?_, by decide⟩
  · simp [RankCondition.check_condition, cGlobal, uSale, UserState.get_total_xp,
      isum, saleEntry, saleType, UserState.youtube_sync_on]
  · simp [specGlobalValue, uSale, isum, TrackableEntry.get_xp, saleEntry, saleType,
      TrackableType.calculate_xp_for_entry]
    norm_num [pyInt]

/-! ## C2 -/

/-- C2: the bucket evaluator reads only `TrackableEntry` rows
(models.py:466-470), so a task completion allocated to the bucket —
written by app.py:254-280 and migrate_xp_buckets.py:202-208 precisely so
that it lands in the bucket — contributes nothing: the code yields 0 for a
ledger whose only row is a 50-XP completion allocated to the condition,
while the spec's bucket value is 50. -/
theorem C2_bucket_drops_task_xp :
    cBucket7.check_condition uTaskOnly = (false, 0) ∧
    specBucketValue cBucket7 uTaskOnly = 50 := by
  constructor
  · simp [RankCondition.check_condition, cBucket7, uTaskOnly, isum]
  · simp [specBucketValue, cBucket7, uTaskOnly, isum, taskDone7]

/-! ## C9 -/

/-- C9: for a bucketed `total_xp` condition B, appending any list of
entries all allocated to a different condition id leaves B's evaluated
current value unchanged (so logging entries allocated to A never changes
B, and symmetrically). -/
theorem C9_bucket_isolation (u : UserState) (A B : RankCondition)
    (new : List TrackableEntry)
    (hB : B.condition_type = "total_xp") (hbB : B.is_bucket = true)
    (hne : A.id ≠ B.id)
    (hall : ∀ e ∈ new, e.allocated_condition_id = some A.id) :
    (B.check_condition { u with entries := u.entries ++ new }).2 =
      (B.check_condition u).2 := by
  simp only [RankCondition.check_condition, hB, hbB]
  simp only [if_pos rfl, if_true]
  have hnil : new.filter (fun e => decide (e.allocated_condition_id = some B.id)) = [] := by
    rw [List.filter_eq_nil_iff]
    intro e he
    simp only [decide_eq_true_eq, hall e he, Option.some.injEq]
    exact fun h => hne (h ▸ rfl)
  simp [isum, List.filter_append, hnil]

/-- C9 witness: appending one entry allocated to condition 1 does not move
the bucket value of condition 7. -/
theorem C9_witness :
    (cBucket7.check_condition
      { uSale with entries := uSale.entries ++ [⟨2, 1, 0, 1, 0, some 1, 0⟩] }).2 =
      (cBucket7.check_condition uSale).2 :=
  C9_bucket_isolation uSale cGlobal cBucket7 [⟨2, 1, 0, 1, 0, some 1, 0⟩]
    rfl rfl (by decide) (by intro e he; simp only [List.mem_singleton] at he; subst he; rfl)

/-! ## C10 -/

/-- C10: in `value_based` or `tiered` mode an entry whose value is 0 falls
through the Python truthiness guards and earns the fixed-mode amount
`count * xp_per_unit`; the value-based formula is applied exactly when the
value is nonzero. -/
theorem C10_zero_value_earns_fixed_xp (t : TrackableType) (count : Int)
    (hm : t.xp_mode = "value_based" ∨ t.xp_mode = "tiered") :
    t.calculate_xp_for_entry count 0 = count * t.xp_per_unit ∧
    (∀ value : ℚ, value ≠ 0 → t.xp_mode = "value_based" →
      t.calculate_xp_for_entry count value =
        pyInt (|value| * (if t.xp_multiplier = 0 then 1 else t.xp_multiplier))) ∧
    (∀ (types : List TrackableType) (e : TrackableEntry),
      e.value = 0 →
      types.find? (fun t' => decide (t'.id = e.trackable_type_id)) = some t →
      e.get_xp types = e.count * t.xp_per_unit) := by
  have hnotfixed : ¬(t.xp_mode = "fixed") := by
    rcases hm with h | h <;> rw [h] <;> decide
  have hzero : t.calculate_xp_for_entry count 0 = count * t.xp_per_unit := by
    simp [TrackableType.calculate_xp_for_entry, hnotfixed]
  refine ⟨hzero, ?_, ?_⟩
  · intro value hv hmode
    simp [TrackableType.calculate_xp_for_entry, hnotfixed, hmode, hv]
  · intro types e hval hfind
    have hz : e.count = e.count := rfl
    simp [TrackableEntry.get_xp, hfind, hval]
    have := hzero
    simp [TrackableType.calculate_xp_for_entry, hnotfixed] at this ⊢

/-- C10 witness: the seeded value-based `Sale` type at count 3 and value 0
earns 30 XP, and a $1000 sale earns the value-based 100 XP. -/
theorem C10_witness :
    saleType.calculate_xp_for_entry 3 0 = 3 * saleType.xp_per_unit ∧
    (∀ value : ℚ, value ≠ 0 → saleType.xp_mode = "value_based" →
      saleType.calculate_xp_for_entry 3 value =
        pyInt (|value| *
          (if saleType.xp_multiplier = 0 then 1 else saleType.xp_multiplier))) ∧
    (∀ (types : List TrackableType) (e : TrackableEntry),
      e.value = 0 →
      types.find? (fun t' => decide (t'.id = e.trackable_type_id)) = some saleType →
      e.get_xp types = e.count * saleType.xp_per_unit) :=
  C10_zero_value_earns_fixed_xp saleType 3 (Or.inl rfl)

/-! ## C5 -/

/-- In a list sorted by descending level, `find?` returns a satisfying
element of maximal level. -/
theorem find_sorted_desc_max {p : CustomRank → Bool} {l : List CustomRank}
    (hs : List.Sorted rankDescending l) {r : CustomRank}
    (h : l.find? p = some r) :
    ∀ x ∈ l, p x = true → x.level ≤ r.level := by
  induction l with
  | nil => simp at h
  | cons a t ih =>
    rw [List.find?_cons] at h
    rcases List.sorted_cons.mp hs with ⟨ha, ht⟩
    cases hp : p a with
    | true =>
      rw [hp] at h
      injection h with h
      subst h
      intro x hx _
      rcases List.mem_cons.mp hx with rfl | hxt
      · exact le_refl _
      · exact ha x hxt
    | false =>
      rw [hp] at h
      intro x hx hpx
      rcases List.mem_cons.mp hx with rfl | hxt
      · rw [hp] at hpx; cases hpx
      · exact ih ht h x hxt hpx

/-- C5: if any of the user's ranks is satisfied, `get_user_stats` selects a
satisfied rank of maximal level (evaluation is highest-to-lowest, so the
user holds the highest tier they qualify for, with skipped tiers allowed);
and a rank with no conditions and no legacy threshold is vacuously met. -/
theorem C5_highest_qualifying_rank (u : UserState) (r : CustomRank)
    (hmem : r ∈ u.ranks) (hmet : (r.check_conditions_met u).1 = true) :
    (∃ rc, u.stats_current_rank = some rc ∧
      (rc.check_conditions_met u).1 = true ∧
      ∀ x ∈ u.ranks, (x.check_conditions_met u).1 = true → x.level ≤ rc.level) ∧
    (∀ x : CustomRank, x.conditions = [] → x.min_xp = none →
      (x.check_conditions_met u).1 = true) := by
  constructor
  · set p : CustomRank → Bool := fun x => (x.check_conditions_met u).1 with hp
    set l := List.insertionSort rankDescending u.ranks with hl
    have hperm : List.Perm l u.ranks := List.perm_insertionSort rankDescending u.ranks
    have hsorted : List.Sorted rankDescending l :=
      List.sorted_insertionSort rankDescending u.ranks
    have hrl : r ∈ l := hperm.mem_iff.mpr hmem
    rcases hfind : l.find? p with _ | rc
    · exfalso
      have := List.find?_eq_none.mp hfind r hrl
      rw [hp] at this
      exact this hmet
    · refine ⟨rc, hfind, ?_, ?_⟩
      · have := List.find?_some hfind
        rwa [hp] at this
      · intro x hx hxmet
        exact find_sorted_desc_max hsorted hfind x (hperm.mem_iff.mpr hx) hxmet
  · intro x hconds hxp
    simp [CustomRank.check_conditions_met, hconds, hxp]

/-- Five legacy ranks: the user's 10 XP satisfies levels 1, 3 and 5
(thresholds 0, 5, 10) but not 2 or 4 (thresholds 100, 50). -/
def fiveRanks : List CustomRank :=
  [⟨1, 1, some 0, false, []⟩, ⟨2, 2, some 100, false, []⟩, ⟨3, 3, some 5, false, []⟩,
   ⟨4, 4, some 50, false, []⟩, ⟨5, 5, some 10, false, []⟩]

/-- A fixed-mode 10-XP trackable. -/
def tenXpType : TrackableType := ⟨2, "blog_post", 10, "fixed", 1, []⟩

/-- A user with 10 XP facing the five legacy ranks. -/
def uFive : UserState :=
  ⟨[tenXpType], [⟨1, 2, 0, 1, 0, none, 0⟩], [], [], fiveRanks, none, none, 0, 0, [], [], 0, none⟩

/-- C5 witness: level 5 is met by the 10-XP user, so the selected current
rank is the level-5 rank (not level 3), as `stats_current_rank` confirms. -/
theorem C5_witness :
    ((∃ rc, uFive.stats_current_rank = some rc ∧
      (rc.check_conditions_met uFive).1 = true ∧
      ∀ x ∈ uFive.ranks, (x.check_conditions_met uFive).1 = true → x.level ≤ rc.level) ∧
    (∀ x : CustomRank, x.conditions = [] → x.min_xp = none →
      (x.check_conditions_met uFive).1 = true)) ∧
    uFive.stats_current_rank = some ⟨5, 5, some 10, false, []⟩ := by
  constructor
  · exact C5_highest_qualifying_rank uFive ⟨5, 5, some 10, false, []⟩ (by decide)
      (by simp [CustomRank.check_conditions_met, UserState.get_total_xp, uFive, isum,
        tenXpType, UserState.youtube_sync_on])
  · simp [UserState.stats_current_rank, uFive, fiveRanks, List.insertionSort,
      List.orderedInsert, rankDescending, CustomRank.check_conditions_met,
      UserState.get_total_xp, isum, tenXpType, UserState.youtube_sync_on, List.find?]

/-! ## C3 and C4 -/

/-- C4: with exactly one `total_xp` condition on the next rank and no
explicit choice, an increment auto-allocates to that condition: the entry
is written with that allocation target and the outcome is success (never
ambiguous), for XHR and non-XHR requests alike. -/
theorem C4_single_candidate_auto_allocation (u : UserState) (tid : Nat) (value : ℚ)
    (today : Int) (isXhr : Bool) (r : CustomRank) (c : RankCondition)
    (hn : u.stats_next_rank = some r)
    (hc : r.conditions.filter (fun x => decide (x.condition_type = "total_xp")) = [c]) :
    (admin_trackable_action u tid "increment" value none isXhr today).1 =
      LogResponse.success ∧
    (admin_trackable_action u tid "increment" value none isXhr today).2.entries =
      u.entries ++ [⟨u.fresh_entry_id, tid, today, 1, value, some c.id, today⟩] := by
  simp [admin_trackable_action, hn, hc, optIdTruthy, UserState.touch_streak,
    UserState.check_rank_update]

/-- C4 witness: one rank, one total-XP condition, empty ledger: the logged
entry carries that condition's id and the outcome is success. -/
theorem C4_witness :
    (admin_trackable_action uSingle 9 "increment" 0 none true 0).1 =
      LogResponse.success ∧
    (admin_trackable_action uSingle 9 "increment" 0 none true 0).2.entries =
      uSingle.entries ++ [⟨uSingle.fresh_entry_id, 9, 0, 1, 0, some 3, 0⟩] :=
  C4_single_candidate_auto_allocation uSingle 9 0 0 true ⟨1, 1, none, false, [cSingle]⟩
    cSingle (by decide) (by decide)

/-- C3 (amended): with two or more `total_xp` conditions on the next rank
and no explicit choice, an increment arriving as an XMLHttpRequest returns
the ambiguous outcome listing exactly those conditions (id and display
label) and writes nothing; but a non-XHR increment falls through and
writes the entry with a null allocation target. -/
theorem C3_ambiguity_gate_xhr_only (u : UserState) (tid : Nat) (value : ℚ)
    (today : Int) (r : CustomRank) (cs : List RankCondition)
    (hn : u.stats_next_rank = some r)
    (hcs : r.conditions.filter (fun x => decide (x.condition_type = "total_xp")) = cs)
    (hlen : 2 ≤ cs.length) :
    (admin_trackable_action u tid "increment" value none true today =
      (LogResponse.ambiguous (cs.map (fun c => (c.id, displayName c.custom_name))), u)) ∧
    ((admin_trackable_action u tid "increment" value none false today).1 =
        LogResponse.success ∧
      (admin_trackable_action u tid "increment" value none false today).2.entries =
        u.entries ++ [⟨u.fresh_entry_id, tid, today, 1, value, none, today⟩]) := by
  simp [admin_trackable_action, hn, hcs, hlen, optIdTruthy, UserState.touch_streak,
    UserState.check_rank_update]

/-- C3 witness: a next rank carrying two total-XP conditions; the XHR
request gets the two-candidate ambiguous response while the plain request
writes an unallocated entry. -/
theorem C3_witness :
    (admin_trackable_action uPair 9 "increment" 0 none true 0 =
      (LogResponse.ambiguous [(1, "A"), (2, "B")], uPair)) ∧
    ((admin_trackable_action uPair 9 "increment" 0 none false 0).1 =
        LogResponse.success ∧
      (admin_trackable_action uPair 9 "increment" 0 none false 0).2.entries =
        uPair.entries ++ [⟨uPair.fresh_entry_id, 9, 0, 1, 0, none, 0⟩]) :=
  C3_ambiguity_gate_xhr_only uPair 9 0 0 ⟨1, 1, none, false, [cPairA, cPairB]⟩
    [cPairA, cPairB] (by decide) (by decide) (by decide)

/-- C3 counterexample: in the very situation the claim describes — next
rank with two total-XP conditions, no explicit choice — a non-XHR request
does NOT return the ambiguous outcome and DOES write a ledger row (with no
allocation target). -/
theorem C3_counterexample :
    (admin_trackable_action uPair 9 "increment" 0 none false 0).1 =
      LogResponse.success ∧
    (admin_trackable_action uPair 9 "increment" 0 none false 0).2.entries.length = 1 := by
  constructor <;> decide

/-! ## C6 and C7 -/

/-- After the migration's backfill map, every entry carries an allocation
target. -/
theorem entry_backfill_ne_none (l : List TrackableEntry) (cid : Nat) :
    ∀ e ∈ l.map (fun e =>
      if e.allocated_condition_id = none then
        { e with allocated_condition_id := some cid } else e),
      e.allocated_condition_id ≠ none := by
  intro e he
  rcases List.mem_map.mp he with ⟨a, _, rfl⟩
  by_cases h : a.allocated_condition_id = none
  · simp [h]
  · simp [h]

/-- After the migration's backfill map, every task completion carries an
allocation target. -/
theorem completion_backfill_ne_none (l : List TaskCompletion) (cid : Nat) :
    ∀ c ∈ l.map (fun c =>
      if c.allocated_condition_id = none then
        { c with allocated_condition_id := some cid } else c),
      c.allocated_condition_id ≠ none := by
  intro c hc
  rcases List.mem_map.mp hc with ⟨a, _, rfl⟩
  by_cases h : a.allocated_condition_id = none
  · simp [h]
  · simp [h]

/-- A migration run on a ledger in which every row already carries an
allocation target reports zero allocated rows. -/
theorem migrate_user_count_zero (v : UserState)
    (he : ∀ e ∈ v.entries, e.allocated_condition_id ≠ none)
    (hc : ∀ c ∈ v.completions, c.allocated_condition_id ≠ none) :
    (migrate_user v).2 = (0, 0) := by
  rcases hn : v.migrate_next_rank with _ | r
  · simp only [migrate_user, hn]
  · rcases hcs : r.conditions.filter (fun c => decide (c.condition_type = "total_xp")) with
      _ | ⟨c, rest⟩
    · simp only [migrate_user, hn, hcs]
    · simp only [migrate_user, hn, hcs, Prod.mk.injEq]
      constructor
      · rw [List.length_eq_zero, List.filter_eq_nil_iff]
        intro e hev
        simpa using he e hev
      · rw [List.length_eq_zero, List.filter_eq_nil_iff]
        intro tc htc
        simpa using hc tc htc

/-- C6: the bucket migration is idempotent on allocations — whatever the
starting state, running it a second time allocates zero entries and zero
task completions. -/
theorem C6_migration_idempotent (u : UserState) :
    (migrate_user (migrate_user u).1).2 = (0, 0) := by
  rcases hn : u.migrate_next_rank with _ | r
  · have h1 : migrate_user u = (u, (0, 0)) := by simp only [migrate_user, hn]
    rw [h1]
    rw [h1]
  · rcases hcs : r.conditions.filter (fun c => decide (c.condition_type = "total_xp")) with
      _ | ⟨c, rest⟩
    · have h1 : migrate_user u = (u, (0, 0)) := by simp only [migrate_user, hn, hcs]
      rw [h1]
      rw [h1]
    · have h1 : (migrate_user u).1.entries = u.entries.map (fun e =>
          if e.allocated_condition_id = none then
            { e with allocated_condition_id := some c.id } else e) ∧
          (migrate_user u).1.completions = u.completions.map (fun tc =>
            if tc.allocated_condition_id = none then
              { tc with allocated_condition_id := some c.id } else tc) := by
        simp only [migrate_user, hn, hcs]
        exact ⟨trivial, trivial⟩
      apply migrate_user_count_zero
      · rw [h1.1]
        exact entry_backfill_ne_none u.entries c.id
      · rw [h1.2]
        exact completion_backfill_ne_none u.completions c.id

/-- C7: when the migration fires, the default recipient is the first
converted `total_xp` condition — the one of least id when the rank's
conditions are in ascending id order — and the backfill sets exactly the
null allocation targets of the user's entries and task completions to it,
leaving already-allocated rows untouched. -/
theorem C7_migration_backfill (u : UserState) (r : CustomRank)
    (c : RankCondition) (rest : List RankCondition)
    (hn : u.migrate_next_rank = some r)
    (hcs : r.conditions.filter (fun x => decide (x.condition_type = "total_xp")) = c :: rest)
    (hsorted : List.Pairwise (fun a b => a.id ≤ b.id) r.conditions) :
    (migrate_user u).1.entries = u.entries.map (fun e =>
      if e.allocated_condition_id = none then
        { e with allocated_condition_id := some c.id } else e) ∧
    (migrate_user u).1.completions = u.completions.map (fun tc =>
      if tc.allocated_condition_id = none then
        { tc with allocated_condition_id := some c.id } else tc) ∧
    ∀ c' ∈ c :: rest, c.id ≤ c'.id := by
  refine ⟨?_, ?_, ?_⟩
  · simp only [migrate_user, hn, hcs]
  · simp only [migrate_user, hn, hcs]
  · have hp : List.Pairwise (fun a b : RankCondition => a.id ≤ b.id) (c :: rest) := by
      rw [← hcs]
      exact hsorted.filter _
    intro c' hc'
    rcases List.mem_cons.mp hc' with rfl | h
    · exact le_refl _
    · exact (List.pairwise_cons.mp hp).1 c' h

/-- An entry with no allocation target, for the migration witness. -/
def eNull : TrackableEntry := ⟨1, 1, 0, 1, 0, none, 0⟩

/-- An entry already allocated to condition 9, for the migration witness. -/
def eTagged : TrackableEntry := ⟨2, 1, 0, 1, 0, some 9, 0⟩

/-- An unallocated task completion, for the migration witness. -/
def tcNull : TaskCompletion := ⟨1, 1, 0, 1, 25, none⟩

/-- A user facing the two-condition rank with a mixed ledger: one
unallocated entry, one entry allocated elsewhere, one unallocated
completion. -/
def uMig : UserState :=
  ⟨[], [eNull, eTagged], [tcNull], [], [⟨1, 1, none, false, [cPairA, cPairB]⟩],
    none, none, 0, 0, [], [], 0, none⟩

/-- C7 witness: on the mixed ledger the migration backfills the null rows
to condition 1 (the first converted condition, of least id) and leaves the
row allocated to 9 untouched. -/
theorem C7_witness :
    (migrate_user uMig).1.entries = uMig.entries.map (fun e =>
      if e.allocated_condition_id = none then
        { e with allocated_condition_id := some cPairA.id } else e) ∧
    (migrate_user uMig).1.completions = uMig.completions.map (fun tc =>
      if tc.allocated_condition_id = none then
        { tc with allocated_condition_id := some cPairA.id } else tc) ∧
    ∀ c' ∈ cPairA :: [cPairB], cPairA.id ≤ c'.id :=
  C7_migration_backfill uMig ⟨1, 1, none, false, [cPairA, cPairB]⟩ cPairA [cPairB]
    (by decide) (by decide) (by decide)

/-! ## C8 -/

/-- The per-condition contribution of the progress loop:
`min(1.0, current / (threshold or 1))`. -/
def progressContrib (info : ProgressInfo) : ℚ :=
  min 1 ((info.current : ℚ) / ((if info.threshold = 0 then 1 else info.threshold : Int) : ℚ))

/-- The progress loop's fold accumulates the contribution sum and the
condition count. -/
theorem progress_fold (details : List ProgressInfo) (a : ℚ) (n : Int) :
    details.foldl (fun (acc : ℚ × Int) info =>
        let threshold : Int := if info.threshold = 0 then 1 else info.threshold
        let current : Int := info.current
        (acc.1 + min 1 ((current : ℚ) / (threshold : ℚ)), acc.2 + 1)) (a, n) =
      (a + (details.map progressContrib).sum, n + details.length) := by
  induction details generalizing a n with
  | nil => simp
  | cons d t ih =>
    simp only [List.foldl_cons, List.map_cons, List.sum_cons, List.length_cons, ih,
      Prod.mk.injEq, progressContrib]
    constructor
    · ring
    · push_cast
      ring

/-- Clamping after scaling by 100 is scaling the unit clamp. -/
theorem min_hundred_mul (x : ℚ) : min 100 (100 * x) = 100 * min 1 x := by
  rcases le_total 1 x with h | h
  · rw [min_eq_left h, min_eq_left (by nlinarith), mul_one]
  · rw [min_eq_right h, min_eq_right (by nlinarith)]

/-- C8 (amended): for a non-empty progress dict, the aggregate percentage
is the truncated arithmetic mean of the per-condition clamped percentages
`min(100, current * 100 / threshold)` — except that a zero threshold is
replaced by 1 rather than being treated as already-100% (and a negative
threshold is used as-is). -/
theorem C8_progress_is_mean_of_clamped (details : List ProgressInfo)
    (h : details ≠ []) :
    rank_progress_percent details =
      pyInt ((details.map (fun info =>
          min 100 ((info.current : ℚ) * 100 /
            ((if info.threshold = 0 then 1 else info.threshold : Int) : ℚ)))).sum /
        (details.length : ℚ)) := by
  have hmap : details.map (fun info =>
      min 100 ((info.current : ℚ) * 100 /
        ((if info.threshold = 0 then 1 else info.threshold : Int) : ℚ))) =
      details.map (fun info => 100 * progressContrib info) := by
    apply List.map_congr_left
    intro info _
    rw [progressContrib, ← min_hundred_mul]
    congr 1
    ring
  have hlen : (0 : Int) < details.length := by
    cases details with
    | nil => exact absurd rfl h
    | cons d t => simp
  unfold rank_progress_percent
  rw [if_pos h, progress_fold, if_pos (by simpa using hlen), hmap,
    List.sum_map_mul_left]
  congr 1
  have hne : ((details.length : Int) : ℚ) ≠ 0 := by
    exact_mod_cast ne_of_gt hlen
  field_simp
  ring

/-- C8 witness: two conditions, one met (10/10) and one barely started
(1/10): the aggregate is the mean 55, not the minimum 10. -/
theorem C8_witness :
    rank_progress_percent [⟨10, 1, false⟩, ⟨10, 10, true⟩] =
      pyInt ((([⟨10, 1, false⟩, ⟨10, 10, true⟩] : List ProgressInfo).map (fun info =>
          min 100 ((info.current : ℚ) * 100 /
            ((if info.threshold = 0 then 1 else info.threshold : Int) : ℚ)))).sum /
        (([⟨10, 1, false⟩, ⟨10, 10, true⟩] : List ProgressInfo).length : ℚ)) :=
  C8_progress_is_mean_of_clamped [⟨10, 1, false⟩, ⟨10, 10, true⟩] (by decide)

/-- C8 counterexample: one condition with threshold 0 and current value 0.
The claim says threshold ≤ 0 is treated as already-100%, but the code
substitutes threshold 1 (`info.get('threshold', 1) or 1`) and reports 0%. -/
theorem C8_counterexample :
    rank_progress_percent [⟨0, 0, true⟩] = 0 ∧ (0 : Int) ≠ 100 := by
  refine ⟨?_, by decide⟩
  norm_num [rank_progress_percent, pyInt]

end Cryptasium
